import Mathlib

/-!
# Verification of the parler-tts server request pipeline

Shallow embedding of `src/backend/src/main.rs` (the `generate_tts` handler
and `create_wav_file`), together with spec-modelled definitions for the
external `candle_examples` helpers (`normalize_loudness`,
`write_pcm_as_wav`) and the sampling-strategy selection of
`LogitsProcessor::new`, which are dependency code not present in `src/`.

Modelling conventions:
- Rust `f64` values that the repository code only threads through
  (`temperature`, `top_p`) and the PCM samples are modelled as `ℚ`.
- Rust `u64` / `u32` values are modelled as `ℕ` (the code never performs
  arithmetic on them that could overflow; where a 32-bit container write
  matters, the `< 2 ^ 32` bound is an explicit hypothesis).
- Fallible calls return `Except`; the filesystem is an explicit map from
  paths to byte lists, threaded through the handler.
- The external model artifacts (hub download, tokenizer, model weights)
  are an `Env` record of pure functions: the repository treats them as
  opaque capabilities.  `Env.loadBundle` stands for lines 160-188 of
  `main.rs` (hub fetch, tokenizer load, device, `VarBuilder`, config
  parse, `Model::new`), which the source executes inside
  `create_wav_file`, i.e. on every request.
- Observable actions of a run are recorded in an `Event` trace so that
  claims about "the engine is never invoked" or "the model is loaded per
  request" are statements about the trace.
-/

/-- One multipart form field, as consumed by the `while let Some(field)`
loop of `generate_tts` (main.rs lines 85-97). -/
structure MultipartField where
  name : String
  value : String
deriving DecidableEq, Repr

/-- The local variables accumulated by the form-extraction loop of
`generate_tts` (main.rs lines 78-82): `text`, `description`,
`temperature`, `seed`, `top_p`. -/
structure ParsedForm where
  text : String
  description : String
  temperature : Option ℚ
  seed : Option ℕ
  top_p : Option ℚ
deriving DecidableEq, Repr

/-- One iteration of the extraction loop (main.rs lines 89-96).  The
numeric fields use `data.parse().ok()`: a parse failure stores `none`.
The Rust numeric parsers are stdlib code not in `src/`, so they are
passed in as functions `parse_f64` / `parse_u64`. -/
def processField (parse_f64 : String → Option ℚ) (parse_u64 : String → Option ℕ)
    (st : ParsedForm) (f : MultipartField) : ParsedForm :=
  match f.name with
  | "text" => { st with text := f.value }
  | "description" => { st with description := f.value }
  | "temperature" => { st with temperature := parse_f64 f.value }
  | "seed" => { st with seed := parse_u64 f.value }
  | "top_p" => { st with top_p := parse_f64 f.value }
  | _ => st

/-- The whole extraction loop (main.rs lines 78-97): fold over the fields
starting from empty strings and `None`s. -/
def extractForm (parse_f64 : String → Option ℚ) (parse_u64 : String → Option ℕ)
    (fields : List MultipartField) : ParsedForm :=
  fields.foldl (processField parse_f64 parse_u64) ⟨"", "", none, none, none⟩

/-- The decoded model configuration, reduced to the field the pipeline
reads: `config.audio_encoder.sampling_rate` (main.rs line 235). -/
structure ModelBundle where
  sampling_rate : ℕ
deriving DecidableEq, Repr

/-- The arguments of `candle_transformers::generation::LogitsProcessor::new`
as built at main.rs lines 209-213: `(seed, Some(temperature), top_p)`. -/
structure LogitsProcessorArgs where
  seed : ℕ
  temperature : Option ℚ
  top_p : Option ℚ
deriving DecidableEq, Repr

/-- Modelled from the spec: the sampling strategy selected by the
`LogitsProcessor` (dependency code, not in `src/`).  Spec section 4.3: if
`temperature == 0`, selection is deterministic greedy; otherwise scores
are scaled by `1/temperature` and optionally nucleus-filtered by
`top_p`. -/
inductive SamplingMode where
  | greedy : SamplingMode
  | sample (temperature : ℚ) (top_p : Option ℚ) : SamplingMode
deriving DecidableEq, Repr

/-- Modelled from the spec: strategy selection from the processor
arguments (spec section 4.3). -/
def samplingMode (lp : LogitsProcessorArgs) : SamplingMode :=
  match lp.temperature with
  | none => .greedy
  | some t => if t = 0 then .greedy else .sample t lp.top_p

/-- The struct passed from `generate_tts` to `create_wav_file`
(main.rs lines 140-148). -/
structure CreateWavArgs where
  description : String
  prompt : String
  out_file : String
  temperature : Option ℚ
  seed : Option ℕ
  top_p : Option ℚ
deriving DecidableEq, Repr

/-- The external capabilities used by `create_wav_file`.  `loadBundle`
covers main.rs lines 160-188 (hub fetch of weights/config/tokenizer,
tokenizer load, device and model construction); `encode` is
`tokenizer.encode(_, true)` returning ids; `generate` is
`model.generate`; `decode_codes` is `model.audio_encoder.decode_codes`
composed with the `i((0,0))` row extraction.  All are pure values or
functions: the artifacts on disk are fixed for a given deployment. -/
structure Env where
  loadBundle : Except String ModelBundle
  encode : String → Except String (List ℕ)
  generate : List ℕ → List ℕ → LogitsProcessorArgs → ℕ → Except String (List (List ℤ))
  decode_codes : List (List ℤ) → Except String (List ℚ)

/-- Observable actions of one pipeline run. -/
inductive Event where
  | loadModel : Event
  | generateCall (lp : LogitsProcessorArgs) (maxSteps : ℕ) : Event
  | generated (codes : List (List ℤ)) : Event
deriving DecidableEq, Repr

/-- The filesystem, as a map from paths to file contents (byte lists). -/
def FS : Type := String → Option (List ℕ)

/-- Update of the filesystem map, as performed by a file write. -/
def fsWrite (fs : FS) (path : String) (bytes : List ℕ) : FS :=
  fun p => if p = path then some bytes else fs p

/-- Modelled from the spec: `LoudnessNormalizer` (spec section 4.5); the
implementation behind `candle_examples::audio::normalize_loudness`
(main.rs line 230) is dependency code not in `src/`.  The fixed target
peak constant. -/
def target_peak : ℚ := 7 / 10

/-- Absolute value on ℚ, written with an explicit branch so that the
kernel can evaluate it on concrete rationals. -/
def qabs (x : ℚ) : ℚ :=
  if x < 0 then -x else x

/-- Maximum on ℚ, written with an explicit branch so that the kernel can
evaluate it on concrete rationals. -/
def qmax (x y : ℚ) : ℚ :=
  if x ≤ y then y else x

/-- Minimum on ℚ, written with an explicit branch so that the kernel can
evaluate it on concrete rationals. -/
def qmin (x y : ℚ) : ℚ :=
  if x ≤ y then x else y

/-- Peak absolute sample value of a PCM buffer. -/
def peakAbs (pcm : List ℚ) : ℚ :=
  (pcm.map qabs).foldr qmax 0

/-- Modelled from the spec: `LoudnessNormalizer.normalize` (spec section
4.5).  Computes the peak absolute sample; if zero (silence) returns the
input unchanged (division-by-zero guard); otherwise scales every sample
by `target_peak / peak`. -/
def normalize_loudness (pcm : List ℚ) : List ℚ :=
  let peak := peakAbs pcm
  if peak = 0 then pcm else pcm.map (fun x => x * (target_peak / peak))

/-- Little-endian bytes of a 16-bit value. -/
def u16le (n : ℕ) : List ℕ :=
  [n % 256, n / 256 % 256]

/-- Little-endian bytes of a 32-bit value. -/
def u32le (n : ℕ) : List ℕ :=
  [n % 256, n / 256 % 256, n / 65536 % 256, n / 16777216 % 256]

/-- Little-endian bytes of a signed 16-bit sample (two's complement). -/
def i16le (z : ℤ) : List ℕ :=
  u16le (z % 65536).toNat

/-- Clamp a sample to `[-1, 1]` (spec section 4.6). -/
def clamp1 (x : ℚ) : ℚ :=
  qmax (-1) (qmin 1 x)

/-- Quantize a clamped sample to the signed 16-bit range
(spec section 4.6). -/
def quantize16 (x : ℚ) : ℤ :=
  ⌊clamp1 x * 32767⌋

/-- Modelled from the spec: `WavEncoder.encode` (spec section 4.6); the
implementation behind `candle_examples::wav::write_pcm_as_wav`
(main.rs line 235) is dependency code not in `src/`.  Emits a canonical
44-byte RIFF/WAVE header declaring PCM format, one channel, the given
sample rate and 16 bits per sample, followed by the quantized samples. -/
def write_pcm_as_wav (samples : List ℚ) (sample_rate : ℕ) : List ℕ :=
  let dataLen := 2 * samples.length
  List.flatten
    [[82, 73, 70, 70], u32le (36 + dataLen), [87, 65, 86, 69],
      [102, 109, 116, 32], u32le 16, u16le 1, u16le 1,
      u32le sample_rate, u32le (2 * sample_rate), u16le 2, u16le 16,
      [100, 97, 116, 97], u32le dataLen,
      samples.flatMap (fun x => i16le (quantize16 x))]

/-- The byte at an offset of a byte list (0 past the end). -/
def byteAt : List ℕ → ℕ → ℕ
  | [], _ => 0
  | b :: _, 0 => b
  | _ :: bs, n + 1 => byteAt bs n

/-- Read a little-endian 16-bit value at a byte offset. -/
def readU16le (bs : List ℕ) (off : ℕ) : ℕ :=
  byteAt bs off + 256 * byteAt bs (off + 1)

/-- Read a little-endian 32-bit value at a byte offset. -/
def readU32le (bs : List ℕ) (off : ℕ) : ℕ :=
  byteAt bs off + 256 * byteAt bs (off + 1) + 65536 * byteAt bs (off + 2) +
    16777216 * byteAt bs (off + 3)

/-- The hard-coded step bound of `create_wav_file`
(main.rs line 157: `let max_steps: usize = 512`). -/
def max_steps : ℕ := 512

/-- Embedding of `create_wav_file` (main.rs lines 150-239).  Resolves the sampling
defaults (`temperature.unwrap_or(0.0)`, `seed.unwrap_or(0)`, `top_p`
passed through, lines 154-157), loads the model artifacts (lines
160-188, recorded as `Event.loadModel`), tokenizes description and
prompt (lines 194-208, failures propagate via `?`), builds the
`LogitsProcessor` arguments (lines 209-213), generates the code matrix
(line 218), decodes it to PCM (lines 224-229), normalizes loudness (line
230) and writes the WAV file to `out_file` (lines 234-235).

The `persist` flag isolates the disk write of lines 234-235 so that the
spec's "persistence is optional" counterfactual can be stated; the
source itself always writes, i.e. corresponds to `persist = true`.
The tokenizer-load `unwrap` of line 173 (a panic) is folded into a
`loadBundle` failure; no claim distinguishes panic from error there. -/
def create_wav_file (env : Env) (persist : Bool) (fs : FS) (a : CreateWavArgs) :
    Except String Unit × FS × List Event :=
  let temperature : ℚ := a.temperature.getD 0
  let seed : ℕ := a.seed.getD 0
  let top_p : Option ℚ := a.top_p
  match env.loadBundle with
  | .error e => (.error e, fs, [.loadModel])
  | .ok bundle =>
    match env.encode a.description with
    | .error e => (.error e, fs, [.loadModel])
    | .ok description_token_ids =>
      match env.encode a.prompt with
      | .error e => (.error e, fs, [.loadModel])
      | .ok prompt_token_ids =>
        let lp : LogitsProcessorArgs := ⟨seed, some temperature, top_p⟩
        match env.generate prompt_token_ids description_token_ids lp max_steps with
        | .error e => (.error e, fs, [.loadModel, .generateCall lp max_steps])
        | .ok codes =>
          match env.decode_codes codes with
          | .error e =>
            (.error e, fs, [.loadModel, .generateCall lp max_steps, .generated codes])
          | .ok pcm =>
            (.ok (),
              if persist then
                fsWrite fs a.out_file (write_pcm_as_wav (normalize_loudness pcm) bundle.sampling_rate)
              else fs,
              [.loadModel, .generateCall lp max_steps, .generated codes])

/-- The audio output directory (main.rs line 109). -/
def audioDir : String := "./public/audio/"

/-- The timestamped file name (main.rs line 108). -/
def wavFilename (timestamp : ℕ) : String :=
  "generated_audio_" ++ toString timestamp ++ ".wav"

/-- The HTTP success response built at main.rs lines 132-137 (status,
content type, and the body bytes; the `Content-Disposition` file name is
derived from the timestamp and not part of any claim about bytes). -/
structure HttpResponse where
  status : ℕ
  content_type : String
  body : List ℕ
deriving DecidableEq, Repr

/-- Embedding of `generate_tts` (main.rs lines 77-138).  Extracts the form fields,
rejects with status 400 when `text` or `description` is empty (line 99),
computes the timestamped output path (lines 104-109), runs
`create_wav_file` (line 125, failures map to status 500), reads the
generated file back from disk (line 130, failure maps to 500) and
returns its bytes as the `audio/wav` response body (lines 132-137).
`std::fs::create_dir_all` (line 112) is not modelled: its only effect is
an error path to 500 orthogonal to every claim.  The `timestamp`
argument is the single nondeterministic input (wall-clock seconds). -/
def generate_tts (env : Env) (parse_f64 : String → Option ℚ)
    (parse_u64 : String → Option ℕ) (persist : Bool) (timestamp : ℕ)
    (fs : FS) (fields : List MultipartField) :
    Except ℕ HttpResponse × FS × List Event :=
  let form := extractForm parse_f64 parse_u64 fields
  if form.text.isEmpty || form.description.isEmpty then
    (.error 400, fs, [])
  else
    let filepath := audioDir ++ wavFilename timestamp
    let r := create_wav_file env persist fs
      ⟨form.description, form.text, filepath, form.temperature, form.seed, form.top_p⟩
    match r.1 with
    | .error _ => (.error 500, r.2.1, r.2.2)
    | .ok _ =>
      match r.2.1 filepath with
      | none => (.error 500, r.2.1, r.2.2)
      | some audio_data => (.ok ⟨200, "audio/wav", audio_data⟩, r.2.1, r.2.2)

/-- The response body of a run: the bytes on success, the status code on
failure. -/
def bodyOf (r : Except ℕ HttpResponse × FS × List Event) : Except ℕ (List ℕ) :=
  Except.map (fun resp => resp.body) r.1

/-- The code matrices produced by the generation engine during a run,
read off the event trace. -/
def codesOf (r : Except ℕ HttpResponse × FS × List Event) : List (List (List ℤ)) :=
  r.2.2.filterMap (fun e =>
    match e with
    | .generated codes => some codes
    | _ => none)

deriving instance DecidableEq for Except

/-- A concrete environment in which every pipeline stage succeeds, used
to instantiate the theorems at explicit inputs. -/
def envOkW : Env where
  loadBundle := .ok ⟨24000⟩
  encode := fun s => .ok [s.length]
  generate := fun p d lp m => .ok [[(p.length : ℤ) + d.length + lp.seed + m]]
  decode_codes := fun _ => .ok [0, 1 / 2]

/-- A numeric parser that fails on every string (concrete stand-in for a
malformed-field scenario). -/
def pfW : String → Option ℚ := fun _ => none

/-- An unsigned parser that fails on every string. -/
def puW : String → Option ℕ := fun _ => none

/-- The empty filesystem. -/
def fs0 : FS := fun _ => none

/-- A well-formed request: non-empty `text` and `description`. -/
def fieldsW : List MultipartField :=
  [⟨"text", "hello"⟩, ⟨"description", "calm voice"⟩]

/-- A second well-formed request, distinct from `fieldsW`. -/
def fieldsW2 : List MultipartField :=
  [⟨"text", "again"⟩, ⟨"description", "low voice"⟩]

/-- Variant of `envOkW` whose token encoder fails on every input. -/
def envTokFailW : Env :=
  { envOkW with encode := fun _ => .error "tokenization" }

set_option maxRecDepth 8192

/-- C6: a request whose `text` field is missing or empty is rejected with
status 400, the generation engine is never invoked (empty event trace)
and no file is persisted (the filesystem is returned unchanged);
main.rs line 99 runs before any other effect of the handler. -/
theorem empty_text_rejected_no_effects (env : Env) (pf : String → Option ℚ)
    (pu : String → Option ℕ) (persist : Bool) (t : ℕ) (fs : FS)
    (fields : List MultipartField)
    (h : (extractForm pf pu fields).text = "") :
    generate_tts env pf pu persist t fs fields = (.error 400, fs, []) := by
  unfold generate_tts
  have hb : (extractForm pf pu fields).text.isEmpty = true := by
    rw [h]
    rfl
  simp [hb]

theorem empty_text_rejected_no_effects_witness :
    (extractForm pfW puW [⟨"description", "calm voice"⟩]).text = "" ∧
    generate_tts envOkW pfW puW true 0 fs0 [⟨"description", "calm voice"⟩] =
      (.error 400, fs0, []) :=
  ⟨rfl, empty_text_rejected_no_effects envOkW pfW puW true 0 fs0 _ rfl⟩

/-- C1 counterexample: a request with non-empty `text` and absent
`description` is rejected with client error 400 and nothing runs — the
claim says it succeeds using a substituted default description.
main.rs line 99 rejects when either field is empty and no default
description exists anywhere in the source. -/
theorem empty_description_rejected_at_concrete_input :
    (extractForm pfW puW [⟨"text", "hello"⟩]).text = "hello" ∧
    (extractForm pfW puW [⟨"text", "hello"⟩]).description = "" ∧
    generate_tts envOkW pfW puW true 0 fs0 [⟨"text", "hello"⟩] =
      (.error 400, fs0, []) := by
  refine ⟨?_, ?_, ?_⟩ <;> with_unfolding_all rfl

/-- C1 (amended): a request whose extracted `description` is empty is
rejected with status 400 with no other effect, regardless of `text`;
no default style description is ever substituted (main.rs line 99). -/
theorem empty_description_rejected (env : Env) (pf : String → Option ℚ)
    (pu : String → Option ℕ) (persist : Bool) (t : ℕ) (fs : FS)
    (fields : List MultipartField)
    (h : (extractForm pf pu fields).description = "") :
    generate_tts env pf pu persist t fs fields = (.error 400, fs, []) := by
  unfold generate_tts
  have hb : (extractForm pf pu fields).description.isEmpty = true := by
    rw [h]
    rfl
  simp [hb]

theorem empty_description_rejected_witness :
    (extractForm pfW puW [⟨"text", "hi"⟩, ⟨"description", ""⟩]).description = "" ∧
    generate_tts envOkW pfW puW true 0 fs0 [⟨"text", "hi"⟩, ⟨"description", ""⟩] =
      (.error 400, fs0, []) :=
  ⟨rfl, empty_description_rejected envOkW pfW puW true 0 fs0 _ rfl⟩

/-- Every run of `create_wav_file` loads the model artifacts: the trace
of every branch starts with `Event.loadModel` (main.rs lines 160-188 are
unconditional). -/
theorem create_wav_file_loads_model (env : Env) (persist : Bool) (fs : FS)
    (a : CreateWavArgs) :
    Event.loadModel ∈ (create_wav_file env persist fs a).2.2 := by
  unfold create_wav_file
  rcases hb : env.loadBundle with e | bundle
  · simp
  rcases hd : env.encode a.description with e | dt
  · simp
  rcases hp : env.encode a.prompt with e | pt
  · simp
  rcases hg : env.generate pt dt ⟨a.seed.getD 0, some (a.temperature.getD 0), a.top_p⟩ max_steps with e | codes
  · simp [hg]
  rcases hc : env.decode_codes codes with e | pcm <;> simp [hg, hc]

/-- When validation passes, the event trace of `generate_tts` is exactly
that of the inner `create_wav_file` call. -/
theorem generate_tts_trace_eq (env : Env) (pf : String → Option ℚ)
    (pu : String → Option ℕ) (persist : Bool) (t : ℕ) (fs : FS)
    (fields : List MultipartField)
    (h1 : (extractForm pf pu fields).text.isEmpty = false)
    (h2 : (extractForm pf pu fields).description.isEmpty = false) :
    (generate_tts env pf pu persist t fs fields).2.2 =
      (create_wav_file env persist fs
        ⟨(extractForm pf pu fields).description, (extractForm pf pu fields).text,
          audioDir ++ wavFilename t, (extractForm pf pu fields).temperature,
          (extractForm pf pu fields).seed, (extractForm pf pu fields).top_p⟩).2.2 := by
  unfold generate_tts
  simp only [h1, h2, Bool.or_self, Bool.false_eq_true, if_false]
  cases hr : (create_wav_file env persist fs
      ⟨(extractForm pf pu fields).description, (extractForm pf pu fields).text,
        audioDir ++ wavFilename t, (extractForm pf pu fields).temperature,
        (extractForm pf pu fields).seed, (extractForm pf pu fields).top_p⟩).1
  · simp [hr]
  cases hfs : (create_wav_file env persist fs
      ⟨(extractForm pf pu fields).description, (extractForm pf pu fields).text,
        audioDir ++ wavFilename t, (extractForm pf pu fields).temperature,
        (extractForm pf pu fields).seed, (extractForm pf pu fields).top_p⟩).2.1
      (audioDir ++ wavFilename t) <;> simp [hr, hfs]

/-- C2 counterexample: two distinct successful requests each carry a
model-load event in their trace — the model, tokenizer and configuration
are constructed inside the request pipeline on every request, not once
at startup (main.rs lines 160-188 are inside `create_wav_file`, which
`generate_tts` calls at line 125). -/
theorem model_loaded_per_request_at_concrete_inputs :
    Event.loadModel ∈ (generate_tts envOkW pfW puW true 0 fs0 fieldsW).2.2 ∧
    Event.loadModel ∈ (generate_tts envOkW pfW puW true 1 fs0 fieldsW2).2.2 := by
  constructor <;> with_unfolding_all decide

/-- C2 (amended): every request that passes validation executes the
model/tokenizer/configuration construction (an `Event.loadModel` in its
trace); no bundle is built at startup or shared across requests. -/
theorem model_loaded_every_request (env : Env) (pf : String → Option ℚ)
    (pu : String → Option ℕ) (persist : Bool) (t : ℕ) (fs : FS)
    (fields : List MultipartField)
    (h1 : (extractForm pf pu fields).text.isEmpty = false)
    (h2 : (extractForm pf pu fields).description.isEmpty = false) :
    Event.loadModel ∈ (generate_tts env pf pu persist t fs fields).2.2 := by
  rw [generate_tts_trace_eq env pf pu persist t fs fields h1 h2]
  exact create_wav_file_loads_model env persist fs _

theorem model_loaded_every_request_witness :
    (extractForm pfW puW fieldsW).text.isEmpty = false ∧
    (extractForm pfW puW fieldsW).description.isEmpty = false ∧
    Event.loadModel ∈ (generate_tts envOkW pfW puW true 5 fs0 fieldsW).2.2 :=
  ⟨rfl, rfl, model_loaded_every_request envOkW pfW puW true 5 fs0 fieldsW rfl rfl⟩

/-- C3 counterexample: with a token encoder that fails, the failure
propagates out of `create_wav_file` (the `?` at main.rs lines 194-207)
and surfaces as internal error 500, while the same request succeeds
under a non-failing encoder — there is no fallback character tokenizer
and token encoding is not infallible. -/
theorem tokenization_failure_propagates_at_concrete_input :
    envTokFailW.encode "calm voice" = .error "tokenization" ∧
    (generate_tts envTokFailW pfW puW true 0 fs0 fieldsW).1 = .error 500 ∧
    (generate_tts envOkW pfW puW true 0 fs0 fieldsW).1 =
      .ok ⟨200, "audio/wav", write_pcm_as_wav (normalize_loudness [0, 1 / 2]) 24000⟩ := by
  refine ⟨rfl, ?_, ?_⟩ <;> with_unfolding_all rfl

/-- C3 (amended): if the token encoder fails on the request's
description, the request fails with internal error 500 — tokenization
failures propagate to the client as pipeline errors. -/
theorem encode_failure_maps_to_500 (env : Env) (pf : String → Option ℚ)
    (pu : String → Option ℕ) (persist : Bool) (t : ℕ) (fs : FS)
    (fields : List MultipartField) (e : String)
    (h1 : (extractForm pf pu fields).text.isEmpty = false)
    (h2 : (extractForm pf pu fields).description.isEmpty = false)
    (henc : env.encode (extractForm pf pu fields).description = .error e) :
    (generate_tts env pf pu persist t fs fields).1 = .error 500 := by
  unfold generate_tts
  simp only [h1, h2, Bool.or_self, Bool.false_eq_true, if_false]
  unfold create_wav_file
  rcases hb : env.loadBundle with e2 | bundle
  · simp
  simp [henc]

theorem encode_failure_maps_to_500_witness :
    (extractForm pfW puW fieldsW).text.isEmpty = false ∧
    (extractForm pfW puW fieldsW).description.isEmpty = false ∧
    envTokFailW.encode (extractForm pfW puW fieldsW).description = .error "tokenization" ∧
    (generate_tts envTokFailW pfW puW true 3 fs0 fieldsW).1 = .error 500 :=
  ⟨rfl, rfl, rfl,
    encode_failure_maps_to_500 envTokFailW pfW puW true 3 fs0 fieldsW "tokenization" rfl rfl rfl⟩

/-- With the disk write suppressed, `create_wav_file` leaves the
filesystem untouched. -/
theorem create_wav_file_nopersist (env : Env) (fs : FS) (a : CreateWavArgs) :
    (create_wav_file env false fs a).2.1 = fs := by
  unfold create_wav_file
  rcases hb : env.loadBundle with e | bundle
  · simp
  rcases hd : env.encode a.description with e | dt
  · simp
  rcases hp : env.encode a.prompt with e | pt
  · simp
  rcases hg : env.generate pt dt ⟨a.seed.getD 0, some (a.temperature.getD 0), a.top_p⟩ max_steps with e | codes
  · simp [hg]
  rcases hc : env.decode_codes codes with e | pcm <;> simp [hg, hc]

/-- C4 counterexample: on the same request and the same (empty)
filesystem, the run that persists the file succeeds with the WAV bytes
while the run with the write suppressed fails with 500 — the response
body is not independent of the file write, because `generate_tts` reads
the response bytes back from the persisted file (main.rs line 130). -/
theorem persistence_changes_response_at_concrete_input :
    (generate_tts envOkW pfW puW true 0 fs0 fieldsW).1 =
      .ok ⟨200, "audio/wav", write_pcm_as_wav (normalize_loudness [0, 1 / 2]) 24000⟩ ∧
    (generate_tts envOkW pfW puW false 0 fs0 fieldsW).1 = .error 500 := by
  constructor <;> with_unfolding_all rfl

/-- C4 (amended): persisting the WAV file is load-bearing, not an
optional side effect: when the output path is fresh and the write is
suppressed the request cannot succeed, and on every successful run the
response body is exactly the content persisted at the timestamped
path. -/
theorem persistence_required_for_response (env : Env) (pf : String → Option ℚ)
    (pu : String → Option ℕ) (t : ℕ) (fs : FS) (fields : List MultipartField)
    (hfresh : fs (audioDir ++ wavFilename t) = none) :
    (∃ c, (generate_tts env pf pu false t fs fields).1 = .error c) ∧
    (∀ resp, (generate_tts env pf pu true t fs fields).1 = .ok resp →
      (generate_tts env pf pu true t fs fields).2.1 (audioDir ++ wavFilename t) =
        some resp.body) := by
  constructor
  · unfold generate_tts
    by_cases hv : ((extractForm pf pu fields).text.isEmpty ||
        (extractForm pf pu fields).description.isEmpty) = true
    · exact ⟨400, by simp [hv]⟩
    simp only [hv, if_false]
    have hfs2 : (create_wav_file env false fs
        ⟨(extractForm pf pu fields).description, (extractForm pf pu fields).text,
          audioDir ++ wavFilename t, (extractForm pf pu fields).temperature,
          (extractForm pf pu fields).seed, (extractForm pf pu fields).top_p⟩).2.1 = fs :=
      create_wav_file_nopersist env fs _
    cases hr : (create_wav_file env false fs
        ⟨(extractForm pf pu fields).description, (extractForm pf pu fields).text,
          audioDir ++ wavFilename t, (extractForm pf pu fields).temperature,
          (extractForm pf pu fields).seed, (extractForm pf pu fields).top_p⟩).1
    · exact ⟨500, by simp [hr]⟩
    refine ⟨500, ?_⟩
    simp [hr, hfs2, hfresh]
  · intro resp h
    unfold generate_tts at h ⊢
    cases hcond : ((extractForm pf pu fields).text.isEmpty ||
        (extractForm pf pu fields).description.isEmpty)
    case true => simp [hcond] at h
    simp only [hcond, Bool.false_eq_true, if_false] at h ⊢
    split at h
    · simp at h
    next u hequ =>
    split at h
    · simp at h
    next audio_data heqf =>
    dsimp only at h
    simp only [Except.ok.injEq] at h
    subst h
    simp [hequ, heqf]

theorem persistence_required_for_response_witness :
    fs0 (audioDir ++ wavFilename 0) = none ∧
    (∃ c, (generate_tts envOkW pfW puW false 0 fs0 fieldsW).1 = .error c) :=
  ⟨rfl, (persistence_required_for_response envOkW pfW puW 0 fs0 fieldsW rfl).1⟩

/-- A form field whose name is not `temperature` / `seed` / `top_p`
leaves the corresponding accumulator component unchanged. -/
theorem processField_preserves (pf : String → Option ℚ) (pu : String → Option ℕ)
    (st : ParsedForm) (f : MultipartField) :
    (f.name ≠ "temperature" → (processField pf pu st f).temperature = st.temperature) ∧
    (f.name ≠ "seed" → (processField pf pu st f).seed = st.seed) ∧
    (f.name ≠ "top_p" → (processField pf pu st f).top_p = st.top_p) := by
  unfold processField
  split <;> simp_all

/-- If no field in the list is named `temperature`, the loop leaves the
`temperature` component of the accumulator unchanged. -/
theorem extract_loop_temperature (pf : String → Option ℚ) (pu : String → Option ℕ)
    (l : List MultipartField) (st : ParsedForm)
    (h : ∀ g ∈ l, g.name ≠ "temperature") :
    (l.foldl (processField pf pu) st).temperature = st.temperature := by
  induction l generalizing st with
  | nil => rfl
  | cons g l ih =>
    rw [List.foldl_cons]
    rw [ih _ (fun g2 hg2 => h g2 (List.mem_cons_of_mem g hg2))]
    exact (processField_preserves pf pu st g).1 (h g (List.mem_cons_self g l))

/-- If no field in the list is named `seed`, the loop leaves the `seed`
component of the accumulator unchanged. -/
theorem extract_loop_seed (pf : String → Option ℚ) (pu : String → Option ℕ)
    (l : List MultipartField) (st : ParsedForm)
    (h : ∀ g ∈ l, g.name ≠ "seed") :
    (l.foldl (processField pf pu) st).seed = st.seed := by
  induction l generalizing st with
  | nil => rfl
  | cons g l ih =>
    rw [List.foldl_cons]
    rw [ih _ (fun g2 hg2 => h g2 (List.mem_cons_of_mem g hg2))]
    exact (processField_preserves pf pu st g).2.1 (h g (List.mem_cons_self g l))

/-- If no field in the list is named `top_p`, the loop leaves the
`top_p` component of the accumulator unchanged. -/
theorem extract_loop_top_p (pf : String → Option ℚ) (pu : String → Option ℕ)
    (l : List MultipartField) (st : ParsedForm)
    (h : ∀ g ∈ l, g.name ≠ "top_p") :
    (l.foldl (processField pf pu) st).top_p = st.top_p := by
  induction l generalizing st with
  | nil => rfl
  | cons g l ih =>
    rw [List.foldl_cons]
    rw [ih _ (fun g2 hg2 => h g2 (List.mem_cons_of_mem g hg2))]
    exact (processField_preserves pf pu st g).2.2 (h g (List.mem_cons_self g l))

/-- Inserting a numeric field whose value fails to parse does not change
the extracted form, provided the earlier fields do not set that same
numeric field (main.rs lines 92-94: `data.parse().ok()` stores `None` on
failure, which equals the still-unset initial value). -/
theorem extractForm_malformed_skipped (pf : String → Option ℚ)
    (pu : String → Option ℕ) (pre post : List MultipartField) (f : MultipartField)
    (hf : (f.name = "temperature" ∧ pf f.value = none) ∨
      (f.name = "seed" ∧ pu f.value = none) ∨
      (f.name = "top_p" ∧ pf f.value = none))
    (hpre : ∀ g ∈ pre, g.name ≠ f.name) :
    extractForm pf pu (pre ++ f :: post) = extractForm pf pu (pre ++ post) := by
  unfold extractForm
  rw [List.foldl_append, List.foldl_append, List.foldl_cons]
  congr 1
  rcases hf with ⟨hn, hv⟩ | ⟨hn, hv⟩ | ⟨hn, hv⟩ <;>
    rcases hst : pre.foldl (processField pf pu) ⟨"", "", none, none, none⟩ with
      ⟨tx, d, tmp, sd, tp⟩ <;>
    rw [hn] at hpre
  · have := extract_loop_temperature pf pu pre ⟨"", "", none, none, none⟩ hpre
    rw [hst] at this
    simp only at this
    subst this
    simp [processField, hv, hn]
  · have := extract_loop_seed pf pu pre ⟨"", "", none, none, none⟩ hpre
    rw [hst] at this
    simp only at this
    subst this
    simp [processField, hv, hn]
  · have := extract_loop_top_p pf pu pre ⟨"", "", none, none, none⟩ hpre
    rw [hst] at this
    simp only at this
    subst this
    simp [processField, hv, hn]

/-- C5: a malformed value in an optional numeric field (`temperature`,
`seed` or `top_p`, one whose parse fails) is treated exactly as if the
field were absent: the whole handler result — response, filesystem and
trace — is identical to the run without that field, so a malformed
numeric field never causes a rejection (main.rs lines 92-94). -/
theorem malformed_numeric_treated_as_absent (env : Env) (pf : String → Option ℚ)
    (pu : String → Option ℕ) (persist : Bool) (t : ℕ) (fs : FS)
    (pre post : List MultipartField) (f : MultipartField)
    (hf : (f.name = "temperature" ∧ pf f.value = none) ∨
      (f.name = "seed" ∧ pu f.value = none) ∨
      (f.name = "top_p" ∧ pf f.value = none))
    (hpre : ∀ g ∈ pre, g.name ≠ f.name) :
    generate_tts env pf pu persist t fs (pre ++ f :: post) =
      generate_tts env pf pu persist t fs (pre ++ post) := by
  unfold generate_tts
  rw [extractForm_malformed_skipped pf pu pre post f hf hpre]

theorem malformed_numeric_treated_as_absent_witness :
    pfW "warm" = none ∧
    generate_tts envOkW pfW puW true 0 fs0
        [⟨"text", "hello"⟩, ⟨"description", "calm voice"⟩, ⟨"temperature", "warm"⟩] =
      generate_tts envOkW pfW puW true 0 fs0
        [⟨"text", "hello"⟩, ⟨"description", "calm voice"⟩] :=
  ⟨rfl,
    malformed_numeric_treated_as_absent envOkW pfW puW true 0 fs0
      [⟨"text", "hello"⟩, ⟨"description", "calm voice"⟩] []
      ⟨"temperature", "warm"⟩ (Or.inl ⟨rfl, rfl⟩) (by decide)⟩

/-- The output path influences neither the result nor the trace of
`create_wav_file`, and on success the file written at the path holds the
same bytes whatever the path is. -/
theorem create_wav_file_out_file_irrel (env : Env) (fs : FS) (d pr p1 p2 : String)
    (temp : Option ℚ) (sd : Option ℕ) (tp : Option ℚ) :
    (create_wav_file env true fs ⟨d, pr, p1, temp, sd, tp⟩).1 =
      (create_wav_file env true fs ⟨d, pr, p2, temp, sd, tp⟩).1 ∧
    (create_wav_file env true fs ⟨d, pr, p1, temp, sd, tp⟩).2.2 =
      (create_wav_file env true fs ⟨d, pr, p2, temp, sd, tp⟩).2.2 ∧
    (∀ u, (create_wav_file env true fs ⟨d, pr, p1, temp, sd, tp⟩).1 = .ok u →
      (create_wav_file env true fs ⟨d, pr, p1, temp, sd, tp⟩).2.1 p1 =
        (create_wav_file env true fs ⟨d, pr, p2, temp, sd, tp⟩).2.1 p2) := by
  unfold create_wav_file
  dsimp only
  rcases hb : env.loadBundle with e | bundle
  · simp
  rcases hd : env.encode d with e | dt
  · simp
  rcases hp : env.encode pr with e | pt
  · simp
  rcases hg : env.generate pt dt ⟨sd.getD 0, some (temp.getD 0), tp⟩ max_steps with e | codes
  · simp [hg]
  rcases hc : env.decode_codes codes with e | pcm
  · simp [hg, hc]
  simp [hg, hc, fsWrite]

/-- C7: for a fixed request (text, description, seed, temperature,
top_p) and a fixed environment, two runs of the pipeline — differing
only in the wall-clock timestamp, the sole nondeterministic input —
return byte-identical response bodies, and the generation engine
produces identical code matrices on both runs. -/
theorem response_body_deterministic (env : Env) (pf : String → Option ℚ)
    (pu : String → Option ℕ) (t1 t2 : ℕ) (fs : FS)
    (fields : List MultipartField) :
    bodyOf (generate_tts env pf pu true t1 fs fields) =
      bodyOf (generate_tts env pf pu true t2 fs fields) ∧
    codesOf (generate_tts env pf pu true t1 fs fields) =
      codesOf (generate_tts env pf pu true t2 fs fields) := by
  unfold generate_tts
  cases hcond : ((extractForm pf pu fields).text.isEmpty ||
      (extractForm pf pu fields).description.isEmpty)
  · simp only [hcond, Bool.false_eq_true, if_false]
    obtain ⟨h1, h2, h3⟩ := create_wav_file_out_file_irrel env fs
      (extractForm pf pu fields).description (extractForm pf pu fields).text
      (audioDir ++ wavFilename t1) (audioDir ++ wavFilename t2)
      (extractForm pf pu fields).temperature (extractForm pf pu fields).seed
      (extractForm pf pu fields).top_p
    rw [← h1]
    cases hr : (create_wav_file env true fs
        ⟨(extractForm pf pu fields).description, (extractForm pf pu fields).text,
          audioDir ++ wavFilename t1, (extractForm pf pu fields).temperature,
          (extractForm pf pu fields).seed, (extractForm pf pu fields).top_p⟩).1 with
    | error e => simp [bodyOf, codesOf, h2]
    | ok u =>
      have hfs := h3 u hr
      rw [hfs]
      cases hv2 : (create_wav_file env true fs
          ⟨(extractForm pf pu fields).description, (extractForm pf pu fields).text,
            audioDir ++ wavFilename t2, (extractForm pf pu fields).temperature,
            (extractForm pf pu fields).seed, (extractForm pf pu fields).top_p⟩).2.1
          (audioDir ++ wavFilename t2) <;>
        simp [bodyOf, codesOf, h2]
  · simp [hcond]

/-- When `create_wav_file` succeeds, the file at its output path holds a
WAV encoding at the loaded configuration's sample rate. -/
theorem create_wav_file_ok_reads (env : Env) (fs : FS) (a : CreateWavArgs)
    (bundle : ModelBundle) (u : Unit)
    (hb : env.loadBundle = .ok bundle)
    (h : (create_wav_file env true fs a).1 = .ok u) :
    ∃ pcm, (create_wav_file env true fs a).2.1 a.out_file =
      some (write_pcm_as_wav (normalize_loudness pcm) bundle.sampling_rate) := by
  unfold create_wav_file at h ⊢
  rw [hb] at h ⊢
  rcases hd : env.encode a.description with e | dt
  · rw [hd] at h
    simp at h
  rw [hd] at h
  rcases hp : env.encode a.prompt with e | pt
  · rw [hp] at h
    simp at h
  rw [hp] at h
  rcases hg : env.generate pt dt ⟨a.seed.getD 0, some (a.temperature.getD 0), a.top_p⟩
      max_steps with e | codes
  · simp [hg] at h
  rcases hc : env.decode_codes codes with e | pcm
  · simp [hg, hc] at h
  refine ⟨pcm, ?_⟩
  simp [hg, hc, fsWrite]

/-- A successful response body is the WAV encoding of some normalized
PCM buffer at the loaded configuration's sample rate. -/
theorem generate_tts_ok_body (env : Env) (pf : String → Option ℚ)
    (pu : String → Option ℕ) (t : ℕ) (fs : FS) (fields : List MultipartField)
    (resp : HttpResponse) (bundle : ModelBundle)
    (hb : env.loadBundle = .ok bundle)
    (h : (generate_tts env pf pu true t fs fields).1 = .ok resp) :
    ∃ pcm, resp.body = write_pcm_as_wav (normalize_loudness pcm) bundle.sampling_rate := by
  unfold generate_tts at h
  cases hcond : ((extractForm pf pu fields).text.isEmpty ||
      (extractForm pf pu fields).description.isEmpty)
  case true =>
    simp [hcond] at h
  simp only [hcond, Bool.false_eq_true, if_false] at h
  split at h
  · simp at h
  next u hequ =>
  split at h
  · simp at h
  next bytes heqf =>
  dsimp only at h heqf
  simp only [Except.ok.injEq] at h
  obtain ⟨pcm, hread⟩ := create_wav_file_ok_reads env fs _ bundle u hb hequ
  dsimp only at hread
  rw [heqf] at hread
  refine ⟨pcm, ?_⟩
  rw [← h]
  simpa using hread

/-- The individual header bytes of the emitted container, read off the
construction. -/
theorem write_pcm_as_wav_bytes (samples : List ℚ) (r : ℕ) :
    (byteAt (write_pcm_as_wav samples r) 0 = 82 ∧
      byteAt (write_pcm_as_wav samples r) 1 = 73 ∧
      byteAt (write_pcm_as_wav samples r) 2 = 70 ∧
      byteAt (write_pcm_as_wav samples r) 3 = 70) ∧
    (byteAt (write_pcm_as_wav samples r) 8 = 87 ∧
      byteAt (write_pcm_as_wav samples r) 9 = 65 ∧
      byteAt (write_pcm_as_wav samples r) 10 = 86 ∧
      byteAt (write_pcm_as_wav samples r) 11 = 69) ∧
    (byteAt (write_pcm_as_wav samples r) 20 = 1 % 256 ∧
      byteAt (write_pcm_as_wav samples r) 21 = 1 / 256 % 256) ∧
    (byteAt (write_pcm_as_wav samples r) 22 = 1 % 256 ∧
      byteAt (write_pcm_as_wav samples r) 23 = 1 / 256 % 256) ∧
    (byteAt (write_pcm_as_wav samples r) 24 = r % 256 ∧
      byteAt (write_pcm_as_wav samples r) 25 = r / 256 % 256 ∧
      byteAt (write_pcm_as_wav samples r) 26 = r / 65536 % 256 ∧
      byteAt (write_pcm_as_wav samples r) 27 = r / 16777216 % 256) ∧
    (byteAt (write_pcm_as_wav samples r) 34 = 16 % 256 ∧
      byteAt (write_pcm_as_wav samples r) 35 = 16 / 256 % 256) :=
  ⟨⟨rfl, rfl, rfl, rfl⟩, ⟨rfl, rfl, rfl, rfl⟩, ⟨rfl, rfl⟩, ⟨rfl, rfl⟩,
    ⟨rfl, rfl, rfl, rfl⟩, ⟨rfl, rfl⟩⟩

/-- Offsets 24-27 of the emitted container recover the sample rate. -/
theorem readU32le_write_pcm_rate (samples : List ℚ) (r : ℕ)
    (hr : r < 4294967296) :
    readU32le (write_pcm_as_wav samples r) 24 = r := by
  obtain ⟨-, -, -, -, ⟨r0, r1, r2, r3⟩, -⟩ := write_pcm_as_wav_bytes samples r
  show byteAt (write_pcm_as_wav samples r) 24 +
      256 * byteAt (write_pcm_as_wav samples r) 25 +
      65536 * byteAt (write_pcm_as_wav samples r) 26 +
      16777216 * byteAt (write_pcm_as_wav samples r) 27 = r
  rw [r0, r1, r2, r3]
  omega

/-- Offsets 0-3 of the emitted container are the RIFF magic tag. -/
theorem readU32le_write_pcm_riff (samples : List ℚ) (r : ℕ) :
    readU32le (write_pcm_as_wav samples r) 0 = 1179011410 := by
  obtain ⟨⟨b0, b1, b2, b3⟩, -, -, -, -, -⟩ := write_pcm_as_wav_bytes samples r
  show byteAt (write_pcm_as_wav samples r) 0 +
      256 * byteAt (write_pcm_as_wav samples r) 1 +
      65536 * byteAt (write_pcm_as_wav samples r) 2 +
      16777216 * byteAt (write_pcm_as_wav samples r) 3 = 1179011410
  rw [b0, b1, b2, b3]

/-- Offsets 8-11 of the emitted container are the WAVE magic tag. -/
theorem readU32le_write_pcm_wave (samples : List ℚ) (r : ℕ) :
    readU32le (write_pcm_as_wav samples r) 8 = 1163280727 := by
  obtain ⟨-, ⟨w0, w1, w2, w3⟩, -, -, -, -⟩ := write_pcm_as_wav_bytes samples r
  show byteAt (write_pcm_as_wav samples r) 8 +
      256 * byteAt (write_pcm_as_wav samples r) 9 +
      65536 * byteAt (write_pcm_as_wav samples r) 10 +
      16777216 * byteAt (write_pcm_as_wav samples r) 11 = 1163280727
  rw [w0, w1, w2, w3]

/-- Offsets 20-21 of the emitted container declare linear PCM format. -/
theorem readU16le_write_pcm_format (samples : List ℚ) (r : ℕ) :
    readU16le (write_pcm_as_wav samples r) 20 = 1 := by
  obtain ⟨-, -, ⟨f0, f1⟩, -, -, -⟩ := write_pcm_as_wav_bytes samples r
  show byteAt (write_pcm_as_wav samples r) 20 +
      256 * byteAt (write_pcm_as_wav samples r) 21 = 1
  rw [f0, f1]

/-- Offsets 22-23 of the emitted container declare one channel. -/
theorem readU16le_write_pcm_channels (samples : List ℚ) (r : ℕ) :
    readU16le (write_pcm_as_wav samples r) 22 = 1 := by
  obtain ⟨-, -, -, ⟨c0, c1⟩, -, -⟩ := write_pcm_as_wav_bytes samples r
  show byteAt (write_pcm_as_wav samples r) 22 +
      256 * byteAt (write_pcm_as_wav samples r) 23 = 1
  rw [c0, c1]

/-- Offsets 34-35 of the emitted container declare 16 bits per
sample. -/
theorem readU16le_write_pcm_bits (samples : List ℚ) (r : ℕ) :
    readU16le (write_pcm_as_wav samples r) 34 = 16 := by
  obtain ⟨-, -, -, -, -, ⟨s0, s1⟩⟩ := write_pcm_as_wav_bytes samples r
  show byteAt (write_pcm_as_wav samples r) 34 +
      256 * byteAt (write_pcm_as_wav samples r) 35 = 16
  rw [s0, s1]

/-- C8: every successful response body is a well-formed RIFF/WAVE
container (RIFF and WAVE magic tags in place, linear-PCM format tag)
whose declared sample rate equals the loaded configuration's
`sampling_rate`, with channel count 1 and bit depth 16
(main.rs line 235 passes `config.audio_encoder.sampling_rate`). -/
theorem wav_header_declares_bundle_rate (env : Env) (pf : String → Option ℚ)
    (pu : String → Option ℕ) (t : ℕ) (fs : FS) (fields : List MultipartField)
    (resp : HttpResponse) (bundle : ModelBundle)
    (hb : env.loadBundle = .ok bundle)
    (hrate : bundle.sampling_rate < 4294967296)
    (h : (generate_tts env pf pu true t fs fields).1 = .ok resp) :
    readU32le resp.body 0 = 1179011410 ∧
    (readU32le resp.body 8 = 1163280727 ∧ readU16le resp.body 20 = 1) ∧
    readU32le resp.body 24 = bundle.sampling_rate ∧
    readU16le resp.body 22 = 1 ∧
    readU16le resp.body 34 = 16 := by
  obtain ⟨pcm, hbody⟩ := generate_tts_ok_body env pf pu t fs fields resp bundle hb h
  rw [hbody]
  exact ⟨readU32le_write_pcm_riff _ _,
    ⟨readU32le_write_pcm_wave _ _, readU16le_write_pcm_format _ _⟩,
    readU32le_write_pcm_rate _ _ hrate,
    readU16le_write_pcm_channels _ _, readU16le_write_pcm_bits _ _⟩

theorem wav_header_declares_bundle_rate_witness :
    envOkW.loadBundle = .ok ⟨24000⟩ ∧
    (24000 : ℕ) < 4294967296 ∧
    (generate_tts envOkW pfW puW true 0 fs0 fieldsW).1 =
      .ok ⟨200, "audio/wav", write_pcm_as_wav (normalize_loudness [0, 1 / 2]) 24000⟩ ∧
    readU32le (write_pcm_as_wav (normalize_loudness [0, 1 / 2]) 24000) 24 = 24000 ∧
    readU16le (write_pcm_as_wav (normalize_loudness [0, 1 / 2]) 24000) 22 = 1 ∧
    readU16le (write_pcm_as_wav (normalize_loudness [0, 1 / 2]) 24000) 34 = 16 := by
  have hrun : (generate_tts envOkW pfW puW true 0 fs0 fieldsW).1 =
      .ok ⟨200, "audio/wav", write_pcm_as_wav (normalize_loudness [0, 1 / 2]) 24000⟩ := by
    with_unfolding_all rfl
  have hmain := wav_header_declares_bundle_rate envOkW pfW puW 0 fs0 fieldsW
    ⟨200, "audio/wav", write_pcm_as_wav (normalize_loudness [0, 1 / 2]) 24000⟩
    ⟨24000⟩ rfl (by decide) hrun
  exact ⟨rfl, by decide, hrun, hmain.2.2.1, hmain.2.2.2.1, hmain.2.2.2.2⟩

/-- The executable branch form of `qabs` agrees with `|·|`. -/
theorem qabs_eq_abs (x : ℚ) : qabs x = |x| := by
  unfold qabs
  split
  · exact (abs_of_neg (by assumption)).symm
  · exact (abs_of_nonneg (le_of_not_lt (by assumption))).symm

/-- The executable branch form of `qmax` agrees with `max`. -/
theorem qmax_eq_max (x y : ℚ) : qmax x y = max x y := by
  unfold qmax
  split
  · exact (max_eq_right (by assumption)).symm
  · exact (max_eq_left (le_of_not_le (by assumption))).symm

/-- The peak of a buffer is nonnegative. -/
theorem peakAbs_nonneg (pcm : List ℚ) : 0 ≤ peakAbs pcm := by
  induction pcm with
  | nil => exact le_refl 0
  | cons x xs ih =>
    rw [show peakAbs (x :: xs) = qmax (qabs x) (peakAbs xs) from rfl, qmax_eq_max]
    exact le_trans ih (le_max_right _ _)

/-- An all-zero buffer has peak zero. -/
theorem peakAbs_silent (pcm : List ℚ) (h : ∀ x ∈ pcm, x = 0) :
    peakAbs pcm = 0 := by
  induction pcm with
  | nil => rfl
  | cons x xs ih =>
    rw [show peakAbs (x :: xs) = qmax (qabs x) (peakAbs xs) from rfl]
    rw [h x (List.mem_cons_self x xs)]
    rw [ih (fun y hy => h y (List.mem_cons_of_mem x hy))]
    with_unfolding_all decide

/-- Scaling every sample by a nonnegative constant scales the peak. -/
theorem peakAbs_map_mul (pcm : List ℚ) (c : ℚ) (hc : 0 ≤ c) :
    peakAbs (pcm.map (fun x => x * c)) = peakAbs pcm * c := by
  induction pcm with
  | nil =>
    show (0 : ℚ) = 0 * c
    rw [zero_mul]
  | cons x xs ih =>
    rw [List.map_cons]
    rw [show peakAbs ((x * c) :: List.map (fun y => y * c) xs) =
      qmax (qabs (x * c)) (peakAbs (List.map (fun y => y * c) xs)) from rfl]
    rw [show peakAbs (x :: xs) = qmax (qabs x) (peakAbs xs) from rfl]
    rw [ih, qmax_eq_max, qmax_eq_max, qabs_eq_abs, qabs_eq_abs]
    rw [abs_mul, abs_of_nonneg hc]
    exact (max_mul_of_nonneg _ _ hc).symm

/-- C9: the loudness normalizer returns an all-zero (silent) buffer
unchanged (the division-by-zero guard; no NaN/Inf can arise in the exact
rational model), and on every non-silent buffer it scales all samples by
one positive constant (preserving relative dynamics) so that the output
peak equals the configured target peak exactly. -/
theorem normalize_loudness_silence_and_peak (pcm : List ℚ) :
    ((∀ x ∈ pcm, x = 0) → normalize_loudness pcm = pcm) ∧
    (peakAbs pcm ≠ 0 →
      peakAbs (normalize_loudness pcm) = target_peak ∧
      ∃ c : ℚ, 0 < c ∧ normalize_loudness pcm = pcm.map (fun x => x * c)) := by
  constructor
  · intro hs
    simp only [normalize_loudness]
    rw [if_pos (peakAbs_silent pcm hs)]
  · intro hne
    have hpos : 0 < peakAbs pcm := (peakAbs_nonneg pcm).lt_of_ne (Ne.symm hne)
    have hc : 0 < target_peak / peakAbs pcm :=
      div_pos (by norm_num [target_peak]) hpos
    simp only [normalize_loudness]
    rw [if_neg hne]
    refine ⟨?_, ⟨_, hc, rfl⟩⟩
    rw [peakAbs_map_mul pcm _ hc.le]
    field_simp

theorem normalize_loudness_silence_and_peak_witness :
    normalize_loudness [0, 0] = [0, 0] ∧
    peakAbs [0, -1 / 2] ≠ 0 ∧
    peakAbs (normalize_loudness [0, -1 / 2]) = target_peak := by
  have hne : peakAbs [0, -1 / 2] ≠ 0 := by with_unfolding_all decide
  exact ⟨(normalize_loudness_silence_and_peak [0, 0]).1 (by decide),
    hne, ((normalize_loudness_silence_and_peak [0, -1 / 2]).2 hne).1⟩

/-- Any generation event in a `create_wav_file` trace carries exactly
the resolved defaults of main.rs lines 154-157 and the constant
`max_steps`. -/
theorem create_wav_file_generateCall (env : Env) (persist : Bool) (fs : FS)
    (a : CreateWavArgs) (lp : LogitsProcessorArgs) (m : ℕ)
    (h : Event.generateCall lp m ∈ (create_wav_file env persist fs a).2.2) :
    lp = ⟨a.seed.getD 0, some (a.temperature.getD 0), a.top_p⟩ ∧ m = max_steps := by
  unfold create_wav_file at h
  rcases hb : env.loadBundle with e | bundle
  · rw [hb] at h
    simp at h
  rw [hb] at h
  rcases hd : env.encode a.description with e | dt
  · rw [hd] at h
    simp at h
  rw [hd] at h
  rcases hp : env.encode a.prompt with e | pt
  · rw [hp] at h
    simp at h
  rw [hp] at h
  rcases hg : env.generate pt dt ⟨a.seed.getD 0, some (a.temperature.getD 0), a.top_p⟩
      max_steps with e | codes
  · simp [hg] at h
    exact h
  simp [hg] at h
  rcases hc : env.decode_codes codes with e | pcm
  · simp [hc] at h
    exact h
  simp [hc] at h
  exact h

/-- C10: every generation call of the pipeline uses the constant step
bound 512; and on a request whose optional numeric fields are all absent
or malformed (extracted as `none`), generation runs with seed 0,
temperature 0 and `top_p` unset — a configuration whose spec-modelled
sampling strategy is deterministic greedy selection. -/
theorem generation_defaults_and_max_steps (env : Env) (pf : String → Option ℚ)
    (pu : String → Option ℕ) (persist : Bool) (t : ℕ) (fs : FS)
    (fields : List MultipartField) :
    (∀ lp m, Event.generateCall lp m ∈
        (generate_tts env pf pu persist t fs fields).2.2 → m = 512) ∧
    ((extractForm pf pu fields).temperature = none →
      (extractForm pf pu fields).seed = none →
      (extractForm pf pu fields).top_p = none →
      ∀ lp m, Event.generateCall lp m ∈
          (generate_tts env pf pu persist t fs fields).2.2 →
        lp = ⟨0, some 0, none⟩ ∧ samplingMode lp = .greedy) := by
  have key : ∀ lp m, Event.generateCall lp m ∈
      (generate_tts env pf pu persist t fs fields).2.2 →
      lp = ⟨(extractForm pf pu fields).seed.getD 0,
        some ((extractForm pf pu fields).temperature.getD 0),
        (extractForm pf pu fields).top_p⟩ ∧ m = max_steps := by
    intro lp m hm
    cases hcond : ((extractForm pf pu fields).text.isEmpty ||
        (extractForm pf pu fields).description.isEmpty)
    case true =>
      unfold generate_tts at hm
      simp [hcond] at hm
    rw [generate_tts_trace_eq env pf pu persist t fs fields
      (Bool.or_eq_false_iff.mp hcond).1 (Bool.or_eq_false_iff.mp hcond).2] at hm
    exact create_wav_file_generateCall env persist fs _ lp m hm
  constructor
  · intro lp m hm
    exact (key lp m hm).2
  · intro h1 h2 h3 lp m hm
    obtain ⟨hlp, -⟩ := key lp m hm
    rw [h1, h2, h3] at hlp
    subst hlp
    exact ⟨rfl, by with_unfolding_all decide⟩

theorem generation_defaults_and_max_steps_witness :
    (extractForm pfW puW fieldsW).temperature = none ∧
    (extractForm pfW puW fieldsW).seed = none ∧
    (extractForm pfW puW fieldsW).top_p = none ∧
    Event.generateCall ⟨0, some 0, none⟩ 512 ∈
      (generate_tts envOkW pfW puW true 0 fs0 fieldsW).2.2 ∧
    (512 : ℕ) = 512 ∧
    (⟨0, some 0, none⟩ : LogitsProcessorArgs) = ⟨0, some 0, none⟩ ∧
    samplingMode ⟨0, some 0, none⟩ = .greedy := by
  have hmem : Event.generateCall ⟨0, some 0, none⟩ 512 ∈
      (generate_tts envOkW pfW puW true 0 fs0 fieldsW).2.2 := by
    with_unfolding_all decide
  have hall := generation_defaults_and_max_steps envOkW pfW puW true 0 fs0 fieldsW
  exact ⟨rfl, rfl, rfl, hmem, hall.1 _ _ hmem,
    (hall.2 rfl rfl rfl _ _ hmem).1,
    (hall.2 rfl rfl rfl _ _ hmem).2⟩
